import Mathlib

/-!
Verification of the authorization and query-composition layer of the
Alx_DjangoLearnLab repository (Django / Django-REST-Framework projects).

The development shallowly embeds the permission predicates
(`api/permissions.py`), the runtime permission dispatch
(`api/views.py` `get_permissions`), the follow/unfollow state machine
(`accounts/models.py`, `accounts/views.py`), the notification read-state
logic (`notifications/views.py`, `notifications/models.py`), and the
query-parameter-driven filtering/search/ordering of the book list views
(`api/views.py`, `api/advanced_views.py`), and proves the specified
properties about them.
-/

namespace DjangoLearnLab

/-! ## HTTP methods and identities -/

/-- HTTP method of an inbound request. -/
inductive Method where
  | GET | HEAD | OPTIONS | POST | PUT | PATCH | DELETE
deriving DecidableEq, Repr

/-- `rest_framework.permissions.SAFE_METHODS`: `('GET', 'HEAD', 'OPTIONS')`. -/
def Method.isSafe : Method → Bool
  | .GET => true
  | .HEAD => true
  | .OPTIONS => true
  | _ => false

/-- The authenticated-identity view of `request.user`: the fields the
permission layer reads. An anonymous user has `is_authenticated = false`. -/
structure Identity where
  id : Nat
  is_authenticated : Bool
  is_staff : Bool
deriving DecidableEq, Repr

/-! ## AccessPolicy: `api/permissions.py` -/

/-- `BookActionPermission.has_permission` (`api/permissions.py`): safe
methods are always allowed; otherwise dispatch on `getattr(view, 'action',
None)`: `create`, `update`, `partial_update` require authentication,
`destroy` requires authentication and staff, anything else requires
authentication. -/
def BookActionPermission.has_permission (m : Method) (user : Identity)
    (action : Option String) : Bool :=
  if m.isSafe then
    true
  else if action == some "create" then
    user.is_authenticated
  else if action == some "update" then
    user.is_authenticated
  else if action == some "partial_update" then
    user.is_authenticated
  else if action == some "destroy" then
    user.is_authenticated && user.is_staff
  else
    user.is_authenticated

/-- The spec's `can_access_view` contract, written from the spec's words:
safe methods → `True`; `create`/`update`/`partial_update` →
`identity.is_authenticated`; `destroy` → `identity.is_authenticated AND
identity.is_staff`; any other action → `identity.is_authenticated`. -/
def can_access_view_spec (m : Method) (user : Identity)
    (action : Option String) : Bool :=
  if m.isSafe then
    true
  else if action == some "create" || action == some "update"
      || action == some "partial_update" then
    user.is_authenticated
  else if action == some "destroy" then
    user.is_authenticated && user.is_staff
  else
    user.is_authenticated

/-- `IsOwnerOrReadOnly.has_object_permission` (`api/permissions.py`): read
permissions for any request; write permissions for any authenticated user
(the object, and hence its owner, is not consulted). `ownerId` is the
owner recorded on the object being checked. -/
def IsOwnerOrReadOnly.has_object_permission (m : Method) (user : Identity)
    (_ownerId : Option Nat) : Bool :=
  if m.isSafe then
    true
  else
    user.is_authenticated

/-- The spec's `can_access_object` contract, written from the spec's words:
safe methods → `True`; otherwise `identity.is_authenticated` (no ownership
comparison). -/
def can_access_object_spec (m : Method) (user : Identity) : Bool :=
  if m.isSafe then true else user.is_authenticated

/-! ## Runtime permission dispatch: `get_permissions` in `api/views.py` -/

/-- The two DRF permission classes returned by the `get_permissions`
overrides in `api/views.py`. -/
inductive PermissionClass where
  | AllowAny
  | IsAuthenticated
deriving DecidableEq, Repr

/-- `AllowAny.has_permission` always allows; `IsAuthenticated.has_permission`
allows exactly the authenticated identities. -/
def PermissionClass.permits (p : PermissionClass) (user : Identity) : Bool :=
  match p with
  | .AllowAny => true
  | .IsAuthenticated => user.is_authenticated

/-- DRF's `check_permissions`: every permission class in the list must
allow the request. -/
def permitsAll (ps : List PermissionClass) (user : Identity) : Bool :=
  ps.all (fun p => p.permits user)

/-- `BookListCreateView.get_permissions` (`api/views.py`):
`[AllowAny()]` when `request.method == 'GET'`, otherwise
`[IsAuthenticated()]`. -/
def BookListCreateView.get_permissions (m : Method) : List PermissionClass :=
  if m == .GET then [.AllowAny] else [.IsAuthenticated]

/-- `BookRetrieveUpdateDestroyView.get_permissions` (`api/views.py`): same
dispatch as `BookListCreateView`. -/
def BookRetrieveUpdateDestroyView.get_permissions (m : Method) :
    List PermissionClass :=
  if m == .GET then [.AllowAny] else [.IsAuthenticated]

/-- `AuthorListCreateView.get_permissions` (`api/views.py`): same dispatch. -/
def AuthorListCreateView.get_permissions (m : Method) : List PermissionClass :=
  if m == .GET then [.AllowAny] else [.IsAuthenticated]

/-- `AuthorDetailView.get_permissions` (`api/views.py`): same dispatch. -/
def AuthorDetailView.get_permissions (m : Method) : List PermissionClass :=
  if m == .GET then [.AllowAny] else [.IsAuthenticated]

/-! ## FollowGraph: `accounts/models.py` and `accounts/views.py`

The follow relation is Django's `ManyToManyField('self', symmetrical=False)`
through table: a set of directed `(follower, followee)` edges, modelled as a
duplicate-free list of ordered pairs of user ids. -/

/-- The state of the follow relation: the rows of the many-to-many through
table, one `(follower_id, followee_id)` pair per row. -/
abbrev FollowState := List (Nat × Nat)

/-- `CustomUser.is_following` (`accounts/models.py`):
`self.following.filter(id=user.id).exists()`. -/
def CustomUser.is_following (s : FollowState) (a b : Nat) : Bool :=
  s.contains (a, b)

/-- The many-to-many `add`: inserts the row unless it is already present
(Django's m2m `add` never duplicates an existing relation). -/
def m2mAdd (s : FollowState) (a b : Nat) : FollowState :=
  if s.contains (a, b) then s else (a, b) :: s

/-- `CustomUser.follow` (`accounts/models.py`): `if user != self:
self.following.add(user)`. -/
def CustomUser.follow (s : FollowState) (a b : Nat) : FollowState :=
  if b ≠ a then m2mAdd s a b else s

/-- The many-to-many `remove`: deletes the row(s) for the ordered pair. -/
def CustomUser.unfollow (s : FollowState) (a b : Nat) : FollowState :=
  s.filter (fun e => e ≠ (a, b))

/-- The three 400-level error outcomes of the follow endpoints
(`accounts/views.py`). -/
inductive FollowError where
  | selfFollow
  | alreadyFollowing
  | notFollowing
deriving DecidableEq, Repr

/-- `follow_user` (`accounts/views.py`): 400 "cannot follow yourself" when
the target is the current user; 400 "already following" when the edge
exists; otherwise `current_user.follow(user_to_follow)` and a 200. -/
def follow_user (s : FollowState) (current target : Nat) :
    Except FollowError FollowState :=
  if current = target then
    .error .selfFollow
  else if CustomUser.is_following s current target then
    .error .alreadyFollowing
  else
    .ok (CustomUser.follow s current target)

/-- `unfollow_user` (`accounts/views.py`): 400 "cannot unfollow yourself"
when the target is the current user; 400 "not following" when no edge
exists; otherwise `current_user.unfollow(user_to_unfollow)` and a 200. -/
def unfollow_user (s : FollowState) (current target : Nat) :
    Except FollowError FollowState :=
  if current = target then
    .error .selfFollow
  else if ¬ CustomUser.is_following s current target then
    .error .notFollowing
  else
    .ok (CustomUser.unfollow s current target)

/-- One request against the follow endpoints. -/
inductive FollowOp where
  | follow (current target : Nat)
  | unfollow (current target : Nat)
deriving DecidableEq, Repr

/-- Run one follow/unfollow request; an error response leaves the stored
relation unchanged. -/
def followStep (s : FollowState) (op : FollowOp) : FollowState :=
  match op with
  | .follow a b =>
    match follow_user s a b with
    | .ok s' => s'
    | .error _ => s
  | .unfollow a b =>
    match unfollow_user s a b with
    | .ok s' => s'
    | .error _ => s

/-- Run a sequence of follow/unfollow requests from left to right. -/
def followRun (s : FollowState) (ops : List FollowOp) : FollowState :=
  ops.foldl followStep s

/-- The FollowGraph invariant: no self-edges, and at most one row per
ordered `(follower, followee)` pair. -/
def FollowInv (s : FollowState) : Prop :=
  (∀ e ∈ s, e.1 ≠ e.2) ∧ s.Nodup

/-! ## NotificationState: `notifications/models.py` and `notifications/views.py` -/

/-- One row of the `Notification` model (`notifications/models.py`):
`recipient`, `actor`, `verb`, a generic `target` reference, the `read`
flag (default `False`), and the `auto_now_add` timestamp. -/
structure Notification where
  recipient : Nat
  actor : Nat
  verb : String
  targetRef : Option Nat
  read : Bool
  timestamp : Nat
deriving DecidableEq, Repr

/-- The notification table. -/
abbrev NotifState := List Notification

/-- Modelled from the spec: the notification-synthesis operation
`create_notification(recipient, actor, verb, target_ref)` (the like/comment
endpoints that call it are referenced by `notifications/tests.py` but are
not part of the sources): no-op (creates nothing) when
`recipient == actor`, otherwise inserts an unread record (timestamped
`now` by `auto_now_add`). -/
def create_notification (s : NotifState) (recipient actor : Nat)
    (verb : String) (targetRef : Option Nat) (now : Nat) : NotifState :=
  if recipient = actor then
    s
  else
    ⟨recipient, actor, verb, targetRef, false, now⟩ :: s

/-- `unread_notifications_count` (`notifications/views.py`):
`Notification.objects.filter(recipient=request.user, read=False).count()`. -/
def unread_count (s : NotifState) (u : Nat) : Nat :=
  (s.filter (fun n => n.recipient == u && !n.read)).length

/-- `mark_all_notifications_read` (`notifications/views.py`):
`Notification.objects.filter(recipient=request.user, read=False)
.update(read=True)` — returns the number of rows updated together with the
updated table. -/
def mark_all_read (s : NotifState) (u : Nat) : Nat × NotifState :=
  ((s.filter (fun n => n.recipient == u && !n.read)).length,
   s.map (fun n =>
     if n.recipient == u && !n.read then { n with read := true } else n))

/-- The list ordering used by `NotificationListView.get_queryset`
(`notifications/views.py`): `order_by('read', '-timestamp')` — unread
(`read = False`) before read, and within equal read-state most recent
first. -/
def Notification.le (n1 n2 : Notification) : Prop :=
  (n1.read = false ∧ n2.read = true) ∨
  (n1.read = n2.read ∧ n2.timestamp ≤ n1.timestamp)

instance : DecidableRel Notification.le := fun n1 n2 => by
  unfold Notification.le
  infer_instance

instance : IsTotal Notification Notification.le := by
  constructor
  intro a b
  rcases ha : a.read <;> rcases hb : b.read
  · rcases Nat.le_total b.timestamp a.timestamp with h | h
    · exact Or.inl (Or.inr ⟨by rw [ha, hb], h⟩)
    · exact Or.inr (Or.inr ⟨by rw [ha, hb], h⟩)
  · exact Or.inl (Or.inl ⟨ha, hb⟩)
  · exact Or.inr (Or.inl ⟨hb, ha⟩)
  · rcases Nat.le_total b.timestamp a.timestamp with h | h
    · exact Or.inl (Or.inr ⟨by rw [ha, hb], h⟩)
    · exact Or.inr (Or.inr ⟨by rw [ha, hb], h⟩)

instance : IsTrans Notification Notification.le := by
  constructor
  intro a b c hab hbc
  rcases hab with ⟨ha, hb⟩ | ⟨hab, htab⟩
  · rcases hbc with ⟨hb', _⟩ | ⟨hbc, _⟩
    · rw [hb] at hb'; cases hb'
    · exact Or.inl ⟨ha, hbc ▸ hb⟩
  · rcases hbc with ⟨hb', hc⟩ | ⟨hbc, htbc⟩
    · exact Or.inl ⟨hab ▸ hb', hc⟩
    · exact Or.inr ⟨hab.trans hbc, htbc.trans htab⟩

/-- `NotificationListView.get_queryset` (`notifications/views.py`):
`Notification.objects.filter(recipient=self.request.user)
.order_by('read', '-timestamp')`. -/
def NotificationListView.get_queryset (u : Nat) (s : NotifState) :
    List Notification :=
  List.insertionSort Notification.le (s.filter (fun n => n.recipient == u))

/-! ## QueryComposer: the book list views of `api/views.py`

`BookListView` declares `filter_backends = [DjangoFilterBackend,
SearchFilter, OrderingFilter]` with `filterset_fields = ['author',
'publication_year', 'title']`, `search_fields = ['title', 'author__name']`,
`ordering_fields = ['title', 'publication_year', 'author__name', 'id']`,
default `ordering = ['-publication_year', 'title']`, and a `get_queryset`
override adding the `year_from`/`year_to` range filters and the
`title_starts_with`/`author_contains` string filters. -/

/-- Case-folded character list of a string, for the ORM's `i`-prefixed
(case-insensitive) lookups. -/
def lowerChars (s : String) : List Char :=
  s.toList.map Char.toLower

/-- Substring test on character lists: `nee` occurs contiguously in `hay`. -/
def hasSub (nee : List Char) : List Char → Bool
  | [] => nee.isEmpty
  | c :: t => nee.isPrefixOf (c :: t) || hasSub nee t

/-- The ORM lookup `field__icontains=sub`. -/
def icontains (field sub : String) : Bool :=
  hasSub (lowerChars sub) (lowerChars field)

/-- The ORM lookup `field__istartswith=sub`. -/
def istartswith (field sub : String) : Bool :=
  (lowerChars sub).isPrefixOf (lowerChars field)

/-- One row of the `Book` model (`api/models.py`): `title`,
`publication_year`, and the `author` foreign key (with the related
`Author.name` denormalized for `author__name` lookups). -/
structure Book where
  id : Nat
  title : String
  authorId : Nat
  authorName : String
  publicationYear : Int
deriving DecidableEq, Repr

/-- `request.query_params`: the decoded query string. -/
abbrev Params := List (String × String)

/-- `request.query_params.get(k, None)`. -/
def getParam (ps : Params) (k : String) : Option String :=
  (ps.find? (fun p => p.1 == k)).map (fun p => p.2)

/-- `request.query_params.get(k, None)` followed by Python truthiness
(`if value:`): both a missing parameter and an empty string are skipped. -/
def truthyParam (ps : Params) (k : String) : Option String :=
  match getParam ps k with
  | some v => if v.isEmpty then none else some v
  | none => none

/-- Model of Python's `int()` cast, applied by the ORM and django-filter to
integer-typed filter values: an optional sign followed by one or more
decimal digits; anything else fails. -/
def parseInt? (s : String) : Option Int :=
  match s.toList with
  | '-' :: rest => (digitsVal rest).map Int.neg
  | '+' :: rest => digitsVal rest
  | cs => digitsVal cs
where
  digitsVal (cs : List Char) : Option Int :=
    if !cs.isEmpty && cs.all Char.isDigit then
      some (cs.foldl (fun acc c => acc * 10 + ((c.toNat : Int) - 48)) 0)
    else none

/-- The `ValidationError` outcome (HTTP 400 at the boundary) raised when a
filter value cannot be cast to the mapped field's type. -/
inductive QueryError where
  | validationError
deriving DecidableEq, Repr

/-- Apply an integer-valued filter parameter: absent → no-op; present but
not castable to an integer → `ValidationError` (the ORM/django-filter cast
failure); otherwise keep the rows satisfying the predicate. -/
def applyIntFilter (v : Option String) (p : Int → Book → Bool)
    (books : List Book) : Except QueryError (List Book) :=
  match v with
  | none => .ok books
  | some str =>
    match parseInt? str with
    | some n => .ok (books.filter (p n))
    | none => .error .validationError

/-- Apply a string-valued filter parameter: absent → no-op; otherwise keep
the rows satisfying the predicate. -/
def applyStrFilter (v : Option String) (p : String → Book → Bool)
    (books : List Book) : List Book :=
  match v with
  | none => books
  | some str => books.filter (p str)

/-- `BookListView.get_queryset` (`api/views.py`): the `year_from`
(`publication_year__gte`) and `year_to` (`publication_year__lte`) range
filters, then `title_starts_with` (`title__istartswith`) and
`author_contains` (`author__name__icontains`). -/
def BookListView.get_queryset (ps : Params) (books : List Book) :
    Except QueryError (List Book) := do
  let b1 ← applyIntFilter (truthyParam ps "year_from")
    (fun n b => n ≤ b.publicationYear) books
  let b2 ← applyIntFilter (truthyParam ps "year_to")
    (fun n b => b.publicationYear ≤ n) b1
  let b3 := applyStrFilter (truthyParam ps "title_starts_with")
    (fun str b => istartswith b.title str) b2
  let b4 := applyStrFilter (truthyParam ps "author_contains")
    (fun str b => icontains b.authorName str) b3
  .ok b4

/-- `DjangoFilterBackend` over `filterset_fields = ['author',
'publication_year', 'title']`: exact-match filters; a non-numeric value for
the `author` id or for `publication_year` fails field validation and is
surfaced as a 400 `ValidationError`. -/
def applyExactFilters (ps : Params) (books : List Book) :
    Except QueryError (List Book) := do
  let b1 ← applyIntFilter (truthyParam ps "author")
    (fun n b => (b.authorId : Int) == n) books
  let b2 ← applyIntFilter (truthyParam ps "publication_year")
    (fun n b => b.publicationYear == n) b1
  let b3 := applyStrFilter (truthyParam ps "title")
    (fun str b => b.title == str) b2
  .ok b3

/-- `SearchFilter` over `search_fields = ['title', 'author__name']`: rows
matching the term case-insensitively in the title or the author name. -/
def applySearch (ps : Params) (books : List Book) : List Book :=
  applyStrFilter (truthyParam ps "search")
    (fun str b => icontains b.title str || icontains b.authorName str) books

/-- `ordering_fields` of the book list views. -/
def orderingFields : List String :=
  ["title", "publication_year", "author__name", "id"]

/-- The collection's configured default ordering:
`ordering = ['-publication_year', 'title']`. -/
def defaultOrdering : List String :=
  ["-publication_year", "title"]

/-- Split a string at every occurrence of a separator character
(`str.split(',')`). -/
def splitChars (sep : Char) : List Char → List (List Char)
  | [] => [[]]
  | c :: t =>
    if c = sep then [] :: splitChars sep t
    else
      match splitChars sep t with
      | [] => [[c]]
      | g :: gs => (c :: g) :: gs

/-- Strip leading and trailing whitespace (`str.strip()`). -/
def trimChars (cs : List Char) : List Char :=
  ((cs.dropWhile Char.isWhitespace).reverse.dropWhile Char.isWhitespace).reverse

/-- `[param.strip() for param in params.split(',')]` — how `OrderingFilter`
tokenizes the `ordering` parameter. -/
def splitCommaTrim (s : String) : List String :=
  (splitChars ',' s.toList).map (fun cs => String.mk (trimChars cs))

/-- Split an ordering term into its field name and descending flag
(leading `-`). -/
def stripDesc (t : String) : String × Bool :=
  match t.toList with
  | '-' :: rest => (String.mk rest, true)
  | _ => (t, false)

/-- `OrderingFilter.remove_invalid_fields`: keep only the comma-separated
terms whose field name is one of `ordering_fields`. -/
def validTerms (terms : List String) : List String :=
  terms.filter (fun t => orderingFields.contains (stripDesc t).1)

/-- `OrderingFilter.get_ordering`: parse the `ordering` parameter, drop
unknown fields, and fall back to the configured default ordering when
nothing valid remains. -/
def effectiveOrdering (ps : Params) : List String :=
  match truthyParam ps "ordering" with
  | some v =>
    let ts := validTerms (splitCommaTrim v)
    if ts.isEmpty then defaultOrdering else ts
  | none => defaultOrdering

/-- Compare two books on one model field. -/
def fieldCmp (f : String) (b1 b2 : Book) : Ordering :=
  if f = "title" then compare b1.title b2.title
  else if f = "publication_year" then compare b1.publicationYear b2.publicationYear
  else if f = "author__name" then compare b1.authorName b2.authorName
  else compare b1.id b2.id

/-- Compare two books on one ordering term (descending when the term is
`-`-prefixed). -/
def termCmp (t : String) (b1 b2 : Book) : Ordering :=
  let fd := stripDesc t
  let c := fieldCmp fd.1 b1 b2
  if fd.2 then c.swap else c

/-- Lexicographic comparison along an ordering key list, as the database
sorts for `order_by(*keys)`. -/
def keysCmp (keys : List String) (b1 b2 : Book) : Ordering :=
  match keys with
  | [] => .eq
  | t :: ts =>
    match termCmp t b1 b2 with
    | .eq => keysCmp ts b1 b2
    | c => c

/-- The sort relation induced by an ordering key list. -/
def bookLe (keys : List String) (b1 b2 : Book) : Prop :=
  keysCmp keys b1 b2 ≠ .gt

instance (keys : List String) : DecidableRel (bookLe keys) := fun b1 b2 => by
  unfold bookLe
  infer_instance

/-- `order_by(*keys)`: sort the rows by the key list. -/
def orderBy (keys : List String) (books : List Book) : List Book :=
  List.insertionSort (bookLe keys) books

/-- A full list request against `BookListView`: the `get_queryset`
override, then the declared filter backends in order —
`DjangoFilterBackend`, `SearchFilter`, `OrderingFilter`. -/
def BookListView.compose (ps : Params) (books : List Book) :
    Except QueryError (List Book) := do
  let b1 ← BookListView.get_queryset ps books
  let b2 ← applyExactFilters ps b1
  let b3 := applySearch ps b2
  .ok (orderBy (effectiveOrdering ps) b3)

/-- `BookSearchView.get_queryset` (`api/views.py`): when the `search`
parameter is truthy, keep the rows matching `Q(title__icontains=search) |
Q(author__name__icontains=search)`; an absent or empty term filters
nothing. -/
def BookSearchView.get_queryset (ps : Params) (books : List Book) :
    List Book :=
  match truthyParam ps "search" with
  | some str =>
    books.filter (fun b => icontains b.title str || icontains b.authorName str)
  | none => books

/-- The 3-record fixture of the spec's QueryComposer scenarios, with the
publication years 1937, 1954, 1996 (the first two are the repo's own
`test_serializers` sample data). -/
def bookHobbit : Book :=
  ⟨1, "The Hobbit", 1, "J.R.R. Tolkien", 1937⟩

/-- Second fixture record, published 1954. -/
def bookLotR : Book :=
  ⟨2, "The Lord of the Rings", 1, "J.R.R. Tolkien", 1954⟩

/-- Third fixture record, published 1996. -/
def bookGot : Book :=
  ⟨3, "A Game of Thrones", 2, "George R.R. Martin", 1996⟩

/-- The fixed 3-record fixture. -/
def fixtureBooks : List Book :=
  [bookHobbit, bookLotR, bookGot]

/-! ## Helper lemmas -/

/-- After `mark_all_read u`, no unread record for `u` remains. -/
theorem unread_count_mark_all_read (s : NotifState) (u : Nat) :
    unread_count (mark_all_read s u).2 u = 0 := by
  rw [unread_count, List.length_eq_zero, List.filter_eq_nil_iff]
  intro n hn
  obtain ⟨m, _, rfl⟩ := List.mem_map.mp hn
  by_cases h : (m.recipient == u && !m.read) = true
  · simp [mark_all_read, h]
  · simp [mark_all_read, h]

/-- Sorting is a permutation: membership in an ordered result coincides
with membership in the unordered rows. -/
theorem mem_orderBy (keys : List String) (books : List Book) (b : Book) :
    b ∈ orderBy keys books ↔ b ∈ books :=
  (List.perm_insertionSort (bookLe keys) books).mem_iff

/-! ## Claim theorems -/

/-- C1: For every identity and request, `BookActionPermission.has_permission`
returns `true` for the safe methods `GET`, `HEAD`, `OPTIONS` regardless of
the identity; for write methods it returns `identity.is_authenticated` when
the view action is `create`, `update`, or `partial_update`, returns
`identity.is_authenticated AND identity.is_staff` when the action is
`destroy`, and returns `identity.is_authenticated` for any other action —
i.e. it coincides with the spec's `can_access_view` contract. -/
theorem bookActionPermission_matches_can_access_view :
    ∀ (m : Method) (user : Identity) (action : Option String),
      BookActionPermission.has_permission m user action =
        can_access_view_spec m user action := by
  intro m user action
  unfold BookActionPermission.has_permission can_access_view_spec
  by_cases h1 : m.isSafe <;>
    by_cases h2 : action == some "create" <;>
      by_cases h3 : action == some "update" <;>
        by_cases h4 : action == some "partial_update" <;>
          by_cases h5 : action == some "destroy" <;>
            simp [h1, h2, h3, h4, h5]

/-- C5: `IsOwnerOrReadOnly.has_object_permission` returns `true` for safe
methods and, for write methods, returns `identity.is_authenticated`
irrespective of who owns the resource: it coincides with the spec's
owner-free `can_access_object` contract and is invariant under changing
the resource's owner. -/
theorem isOwnerOrReadOnly_degrades_to_authenticated :
    ∀ (m : Method) (user : Identity) (ownerId ownerId' : Option Nat),
      IsOwnerOrReadOnly.has_object_permission m user ownerId =
        can_access_object_spec m user ∧
      IsOwnerOrReadOnly.has_object_permission m user ownerId =
        IsOwnerOrReadOnly.has_object_permission m user ownerId' :=
  fun _ _ _ _ => ⟨rfl, rfl⟩

/-- C10: In the four views that dispatch permissions at runtime,
`get_permissions` returns `[AllowAny]` exactly when the request method is
`GET`; every other method — including the safe methods `HEAD` and
`OPTIONS` — gets `[IsAuthenticated]`, so an anonymous `HEAD` or `OPTIONS`
request is denied (the permission check evaluates to
`identity.is_authenticated`, which is `false` for anonymous users). -/
theorem get_permissions_dispatch :
    (∀ m : Method,
      ((BookListCreateView.get_permissions m = [.AllowAny]) ↔ m = .GET) ∧
      ((BookRetrieveUpdateDestroyView.get_permissions m = [.AllowAny]) ↔
        m = .GET) ∧
      ((AuthorListCreateView.get_permissions m = [.AllowAny]) ↔ m = .GET) ∧
      ((AuthorDetailView.get_permissions m = [.AllowAny]) ↔ m = .GET) ∧
      (m = .GET ∨
        (BookListCreateView.get_permissions m = [.IsAuthenticated] ∧
         BookRetrieveUpdateDestroyView.get_permissions m = [.IsAuthenticated] ∧
         AuthorListCreateView.get_permissions m = [.IsAuthenticated] ∧
         AuthorDetailView.get_permissions m = [.IsAuthenticated]))) ∧
    (∀ user : Identity,
      permitsAll (BookListCreateView.get_permissions .HEAD) user =
        user.is_authenticated ∧
      permitsAll (BookListCreateView.get_permissions .OPTIONS) user =
        user.is_authenticated ∧
      permitsAll (BookRetrieveUpdateDestroyView.get_permissions .HEAD) user =
        user.is_authenticated ∧
      permitsAll (BookRetrieveUpdateDestroyView.get_permissions .OPTIONS) user =
        user.is_authenticated ∧
      permitsAll (AuthorListCreateView.get_permissions .HEAD) user =
        user.is_authenticated ∧
      permitsAll (AuthorListCreateView.get_permissions .OPTIONS) user =
        user.is_authenticated ∧
      permitsAll (AuthorDetailView.get_permissions .HEAD) user =
        user.is_authenticated ∧
      permitsAll (AuthorDetailView.get_permissions .OPTIONS) user =
        user.is_authenticated) := by
  constructor
  · intro m
    cases m <;>
      simp [BookListCreateView.get_permissions,
        BookRetrieveUpdateDestroyView.get_permissions,
        AuthorListCreateView.get_permissions, AuthorDetailView.get_permissions]
  · intro user
    simp [BookListCreateView.get_permissions,
      BookRetrieveUpdateDestroyView.get_permissions,
      AuthorListCreateView.get_permissions, AuthorDetailView.get_permissions,
      permitsAll, PermissionClass.permits]

/-- C2: For distinct users `a` and `b` with no existing follow edge,
`follow_user` succeeds and afterwards `is_following a b` holds; a second
`follow_user` fails with the already-following error; following oneself
always fails with the self-follow error; and `unfollow_user` without an
edge fails with the not-following error — each an error outcome (HTTP 400
at the boundary), never a silent no-op. -/
theorem follow_state_machine :
    ∀ (s : FollowState) (a b : Nat), a ≠ b →
      CustomUser.is_following s a b = false →
      (∃ s', follow_user s a b = .ok s' ∧
        CustomUser.is_following s' a b = true ∧
        follow_user s' a b = .error .alreadyFollowing) ∧
      follow_user s a a = .error .selfFollow ∧
      unfollow_user s a b = .error .notFollowing := by
  intro s a b hne hnf
  have hc : s.contains (a, b) = false := hnf
  have hmem : (a, b) ∉ s := by simpa using hc
  refine ⟨⟨(a, b) :: s, ?_, ?_, ?_⟩, ?_, ?_⟩
  · simp [follow_user, CustomUser.is_following, CustomUser.follow, m2mAdd,
      hne, hc, hmem, Ne.symm hne]
  · simp [CustomUser.is_following]
  · simp [follow_user, hne, CustomUser.is_following]
  · simp [follow_user]
  · simp [unfollow_user, hne, hnf]

/-- C2 witness: the state machine at a concrete state — from the empty
relation, user 0 follows user 1. -/
theorem follow_state_machine_witness :
    (∃ s', follow_user [] 0 1 = .ok s' ∧
      CustomUser.is_following s' 0 1 = true ∧
      follow_user s' 0 1 = .error .alreadyFollowing) ∧
    follow_user [] 0 0 = .error .selfFollow ∧
    unfollow_user [] 0 1 = .error .notFollowing :=
  follow_state_machine [] 0 1 (by decide) (by decide)

/-- Every single follow/unfollow request preserves the FollowGraph
invariant. -/
theorem followStep_preserves_inv (s : FollowState) (op : FollowOp)
    (h : FollowInv s) : FollowInv (followStep s op) := by
  obtain ⟨hself, hnd⟩ := h
  cases op with
  | follow a b =>
    simp only [followStep, follow_user]
    by_cases hab : a = b
    · simp only [hab, if_pos rfl]
      exact ⟨hself, hnd⟩
    · rw [if_neg hab]
      by_cases hf : CustomUser.is_following s a b = true
      · simp only [hf, if_pos]
        exact ⟨hself, hnd⟩
      · simp only [hf, if_neg, Bool.false_eq_true, not_false_eq_true,
          CustomUser.follow, m2mAdd]
        rw [if_pos (Ne.symm hab)]
        have hmem : (a, b) ∉ s := by
          simp only [CustomUser.is_following] at hf
          simpa using hf
        rw [if_neg (by simpa using hmem)]
        constructor
        · intro e he
          rcases List.mem_cons.mp he with rfl | he'
          · exact hab
          · exact hself e he'
        · exact List.nodup_cons.mpr ⟨hmem, hnd⟩
  | unfollow a b =>
    simp only [followStep, unfollow_user]
    by_cases hab : a = b
    · simp only [hab, if_pos rfl]
      exact ⟨hself, hnd⟩
    · rw [if_neg hab]
      by_cases hf : CustomUser.is_following s a b = true
      · simp only [hf, if_neg, not_true_eq_false, CustomUser.unfollow]
        constructor
        · intro e he
          exact hself e (List.mem_of_mem_filter he)
        · exact hnd.filter _
      · simp only [hf, if_pos, Bool.false_eq_true, not_false_eq_true]
        exact ⟨hself, hnd⟩

/-- C6: starting from a follow relation with no self-edges and at most one
edge per ordered pair, every sequence of follow/unfollow requests preserves
both properties: no reachable state contains an edge `(u, u)` or a
duplicated ordered pair. -/
theorem follow_invariant_preserved :
    ∀ (ops : List FollowOp) (s : FollowState),
      FollowInv s → FollowInv (followRun s ops) := by
  intro ops
  induction ops with
  | nil => intro s h; exact h
  | cons op rest ih =>
    intro s h
    exact ih (followStep s op) (followStep_preserves_inv s op h)

/-- C6 witness: the invariant after a concrete request sequence from the
empty relation (including a duplicate follow and a self-follow attempt). -/
theorem follow_invariant_preserved_witness :
    FollowInv (followRun []
      [.follow 0 1, .follow 0 1, .follow 2 2, .follow 1 0, .unfollow 0 1]) :=
  follow_invariant_preserved
    [.follow 0 1, .follow 0 1, .follow 2 2, .follow 1 0, .unfollow 0 1] []
    ⟨fun e he => absurd he (List.not_mem_nil e), List.nodup_nil⟩

/-- C7: a self-action creates no notification; after creating one
notification for a recipient with no unread notifications, the unread
count is 1; `mark_all_read` then returns 1 (the number of records actually
flipped from unread to read) and the subsequent unread count is 0. -/
theorem notification_read_state :
    (∀ (s : NotifState) (u : Nat) (verb : String) (ref : Option Nat)
        (now : Nat), create_notification s u u verb ref now = s) ∧
    (∀ (s : NotifState) (u1 u2 : Nat) (verb : String) (ref : Option Nat)
        (now : Nat), u1 ≠ u2 → unread_count s u1 = 0 →
      unread_count (create_notification s u1 u2 verb ref now) u1 = 1 ∧
      (mark_all_read (create_notification s u1 u2 verb ref now) u1).1 = 1 ∧
      unread_count
        (mark_all_read (create_notification s u1 u2 verb ref now) u1).2 u1
        = 0) := by
  constructor
  · intro s u verb ref now
    simp [create_notification]
  · intro s u1 u2 verb ref now hne h0
    rw [unread_count] at h0
    refine ⟨?_, ?_, unread_count_mark_all_read _ _⟩
    · simp [unread_count, create_notification, hne, List.filter_cons, h0]
    · simp [mark_all_read, create_notification, hne, List.filter_cons, h0]

/-- C7 witness: the scenario at concrete inputs — user 1 likes user 0's
post starting from an empty notification table. -/
theorem notification_read_state_witness :
    unread_count (create_notification [] 0 1 "liked your post" (some 7) 3) 0
      = 1 ∧
    (mark_all_read (create_notification [] 0 1 "liked your post" (some 7) 3)
      0).1 = 1 ∧
    unread_count
      (mark_all_read (create_notification [] 0 1 "liked your post" (some 7) 3)
        0).2 0 = 0 :=
  notification_read_state.2 [] 0 1 "liked your post" (some 7) 3
    (by decide) (by decide)

/-- C8: for every recipient, the notification list returns exactly that
recipient's notifications, ordered with unread records first and by
timestamp descending within each read-state bucket (the
`Notification.le` relation). -/
theorem notification_list_ordering :
    ∀ (u : Nat) (s : NotifState),
      (NotificationListView.get_queryset u s).Sorted Notification.le ∧
      ∀ n, n ∈ NotificationListView.get_queryset u s ↔
        n ∈ s ∧ n.recipient = u := by
  intro u s
  constructor
  · exact List.sorted_insertionSort Notification.le _
  · intro n
    rw [NotificationListView.get_queryset,
      (List.perm_insertionSort Notification.le _).mem_iff]
    simp [List.mem_filter]

/-- C3: for any collection, an exact-match filter value invalid for the
mapped field's type (`publication_year=invalid_year`) yields a
`ValidationError` (400-equivalent), while an ordering parameter naming an
unknown field does not error — the result silently falls back to the
collection's configured default ordering. -/
theorem filter_ordering_asymmetry :
    (∀ books : List Book,
      BookListView.compose [("publication_year", "invalid_year")] books =
        .error .validationError) ∧
    (∀ books : List Book,
      BookListView.compose [("ordering", "invalid_field")] books =
        .ok (orderBy defaultOrdering books)) :=
  ⟨fun _ => rfl, fun _ => rfl⟩

/-- C4: range filters are inclusive on both bounds and either bound is
optional: over the 1937/1954/1996 fixture, `year_from=1940` with
`year_to=2000` returns exactly the 1954 and 1996 records in the default
order (publication year descending), and in general a record survives the
range filters iff `year_from ≤ publication_year ≤ year_to`. -/
theorem range_filter_inclusive_bounds :
    (BookListView.compose [("year_from", "1940"), ("year_to", "2000")]
      fixtureBooks = .ok [bookGot, bookLotR]) ∧
    (∀ books : List Book, ∃ res,
      BookListView.compose [("year_from", "1940"), ("year_to", "2000")]
        books = .ok res ∧
      ∀ b, b ∈ res ↔ b ∈ books ∧
        1940 ≤ b.publicationYear ∧ b.publicationYear ≤ 2000) ∧
    (∀ books : List Book, ∃ res,
      BookListView.compose [("year_from", "1940")] books = .ok res ∧
      ∀ b, b ∈ res ↔ b ∈ books ∧ 1940 ≤ b.publicationYear) ∧
    (∀ books : List Book, ∃ res,
      BookListView.compose [("year_to", "2000")] books = .ok res ∧
      ∀ b, b ∈ res ↔ b ∈ books ∧ b.publicationYear ≤ 2000) := by
  refine ⟨rfl, ?_, ?_, ?_⟩
  · intro books
    have hres : BookListView.compose
        [("year_from", "1940"), ("year_to", "2000")] books =
        .ok (orderBy defaultOrdering
          ((books.filter
            (fun x : Book => decide ((1940 : Int) ≤ x.publicationYear))).filter
            (fun x : Book => decide (x.publicationYear ≤ (2000 : Int))))) := rfl
    refine ⟨_, hres, fun b => ?_⟩
    rw [mem_orderBy]
    simp only [List.mem_filter, decide_eq_true_eq, and_assoc]
  · intro books
    have hres : BookListView.compose [("year_from", "1940")] books =
        .ok (orderBy defaultOrdering
          (books.filter
            (fun x : Book => decide ((1940 : Int) ≤ x.publicationYear)))) := rfl
    refine ⟨_, hres, fun b => ?_⟩
    rw [mem_orderBy]
    simp only [List.mem_filter, decide_eq_true_eq]
  · intro books
    have hres : BookListView.compose [("year_to", "2000")] books =
        .ok (orderBy defaultOrdering
          (books.filter
            (fun x : Book => decide (x.publicationYear ≤ (2000 : Int))))) := rfl
    refine ⟨_, hres, fun b => ?_⟩
    rw [mem_orderBy]
    simp only [List.mem_filter, decide_eq_true_eq]

/-- C9: an empty search term is a no-op (every record is returned, no
error), and matching is case-insensitive: `search=hobbit` matches a record
titled `The Hobbit`. -/
theorem search_empty_noop_and_case_insensitive :
    (∀ books : List Book,
      BookSearchView.get_queryset [("search", "")] books = books) ∧
    (∀ (books : List Book) (b : Book), b ∈ books → b.title = "The Hobbit" →
      b ∈ BookSearchView.get_queryset [("search", "hobbit")] books) := by
  constructor
  · intro books
    rfl
  · intro books b hmem htitle
    show b ∈ books.filter
      (fun x => icontains x.title "hobbit" || icontains x.authorName "hobbit")
    refine List.mem_filter.mpr ⟨hmem, ?_⟩
    rw [htitle]
    have h : icontains "The Hobbit" "hobbit" = true := by decide
    simp [h]

/-- C9 witness: the fixture's `The Hobbit` record is matched by
`search=hobbit`. -/
theorem search_case_insensitive_witness :
    bookHobbit ∈ BookSearchView.get_queryset [("search", "hobbit")]
      fixtureBooks :=
  search_empty_noop_and_case_insensitive.2 fixtureBooks bookHobbit
    (by simp [fixtureBooks]) rfl

end DjangoLearnLab
